import Mathlib

/-
Verification of the cache and similarity-matching subsystem of the
InterVue-AI backend (`backend/advanced_smart_cache.py`).

Modelling conventions:
* Python `datetime` timestamps are modelled as natural numbers (seconds);
  every operation that calls `datetime.now()` takes the current time `now`
  as an explicit argument.  The several `datetime.now()` calls inside one
  operation are identified (the source uses them interchangeably within a
  single call).
* Python `float` values are modelled as exact fractions (`PyFloat` below):
  every numeric literal of the source is decimal and is modelled by the
  rational number it denotes, and all arithmetic is exact.
* Python dicts that hold cache entries are modelled as insertion-ordered
  association lists; Python object identity (the same entry dict is
  referenced both from `questions_cache` and from items of `similar_pool`,
  and is mutated in place) is modelled by a heap `entries` of entries
  addressed by allocation index, with the maps and the pool holding indices.
* `hashlib.sha256(...).hexdigest()` is used by the source only to produce an
  opaque deterministic dictionary key; the digest is modelled as the identity
  on the input text, which preserves the only property any statement below
  uses (the digest is a function of the input).
* Question and analysis payloads are opaque to the cache; both are modelled
  by arbitrary type parameters `Q` (one question record) and `A` (one
  analysis record).
-/

namespace SmartCache

/-- Exact-fraction model of a Python `float`: the value `n / d`.  Every value
the cache constructs has a positive denominator.  Comparisons are by
cross-multiplication, which agrees with the real-number comparison whenever
both denominators are positive. -/
structure PyFloat where
  n : Int
  d : Int
  deriving Repr, DecidableEq

/-- Python `a + b` on floats. -/
def PyFloat.add (a b : PyFloat) : PyFloat := ⟨a.n * b.d + b.n * a.d, a.d * b.d⟩

/-- Python `a * b` on floats. -/
def PyFloat.mul (a b : PyFloat) : PyFloat := ⟨a.n * b.n, a.d * b.d⟩

/-- Python `a / b` on floats. -/
def PyFloat.div (a b : PyFloat) : PyFloat := ⟨a.n * b.d, a.d * b.n⟩

/-- Python `a < b` on floats (valid for positive denominators). -/
def PyFloat.blt (a b : PyFloat) : Bool := decide (a.n * b.d < b.n * a.d)

/-- Python `a <= b` on floats (valid for positive denominators). -/
def PyFloat.ble (a b : PyFloat) : Bool := decide (a.n * b.d ≤ b.n * a.d)

/-- Python `a == b` on floats (valid for positive denominators). -/
def PyFloat.beq (a b : PyFloat) : Bool := decide (a.n * b.d = b.n * a.d)

/-- The rational number a `PyFloat` denotes (used only in statements). -/
def PyFloat.toRat (a : PyFloat) : Rat := (a.n : Rat) / (a.d : Rat)

/-- Python `str.lower()` (the sources only feed ASCII text through it). -/
def pyLower (s : String) : String := ⟨s.data.map Char.toLower⟩

/-- Drop leading whitespace of a character list. -/
def dropSpace (l : List Char) : List Char := l.dropWhile Char.isWhitespace

/-- Python `str.strip()`: remove leading and trailing whitespace. -/
def pyStrip (s : String) : String := ⟨(dropSpace (dropSpace s.data).reverse).reverse⟩

/-- Python `s[:k]` on a string. -/
def pyTake (s : String) (k : Nat) : String := ⟨s.data.take k⟩

/-- Python `needle in hay` on character lists. -/
def containsSubAux (needle : List Char) : List Char → Bool
  | [] => needle.isEmpty
  | c :: t => needle.isPrefixOf (c :: t) || containsSubAux needle t

/-- Python `needle in hay` on strings (substring containment). -/
def strContains (hay needle : String) : Bool := containsSubAux needle.data hay.data

/-- `SimpleSimilarityCalculator.role_keywords` (source lines 17-27). -/
def role_keywords : List (String × List String) :=
  [("python", ["python", "py", "django", "flask"]),
   ("javascript", ["javascript", "js", "react", "node"]),
   ("java", ["java", "spring"]),
   ("backend", ["backend", "api", "server"]),
   ("frontend", ["frontend", "ui", "react"]),
   ("devops", ["devops", "docker", "kubernetes"]),
   ("senior", ["senior", "lead", "principal"]),
   ("mid", ["mid", "experienced"]),
   ("junior", ["junior", "entry", "intern"])]

/-- The set of keyword groups matched by a text (`keywords1` / `keywords2` of
`calculate_similarity`); a Python `set` of group names, represented as a
duplicate-free list in taxonomy order. -/
def matchedGroups (text : String) : List String :=
  (role_keywords.filter (fun g => g.2.any (fun kw => strContains text kw))).map Prod.fst

/-- `SimpleSimilarityCalculator.calculate_similarity` (source lines 29-51). -/
def calculate_similarity (job_role1 job_desc1 job_role2 job_desc2 : String) : PyFloat :=
  let text1 := pyLower (job_role1 ++ " " ++ pyTake job_desc1 300)
  let text2 := pyLower (job_role2 ++ " " ++ pyTake job_desc2 300)
  let keywords1 := matchedGroups text1
  let keywords2 := matchedGroups text2
  if keywords1.isEmpty || keywords2.isEmpty then ⟨50, 1⟩
  else
    let intersection := (keywords1.filter (fun r => keywords2.contains r)).length
    let union := (keywords1 ++ keywords2.filter (fun r => !keywords1.contains r)).length
    if 0 < union then PyFloat.mul (PyFloat.div ⟨intersection, 1⟩ ⟨union, 1⟩) ⟨100, 1⟩
    else ⟨50, 1⟩

/-- A questions-cache entry dict (source lines 123-133). -/
structure CacheEntry (Q : Type) where
  fingerprint : String
  job_role : String
  job_description : String
  difficulty : String
  questions : List Q
  created_at : Nat
  expires_at : Nat
  access_count : Nat
  cache_type : String
  deriving DecidableEq

/-- An analysis-cache entry dict (source lines 232-240). -/
structure AnalysisEntry (A : Type) where
  analysis_key : String
  job_description : String
  analysis : A
  created_at : Nat
  expires_at : Nat
  access_count : Nat
  cache_type : String
  deriving DecidableEq

/-- An item of `similar_pool` (source lines 137-142).  The Python item holds a
reference to the shared entry dict; here `entryId` is the index of that entry
in the heap. -/
structure PoolItem where
  fingerprint : String
  entryId : Nat
  accessed_at : Nat
  cache_type : String
  deriving Repr, DecidableEq

/-- The `stats` dict (source lines 70-78). -/
structure Stats where
  exact_hits : Nat
  similar_hits : Nat
  cache_misses : Nat
  total_api_calls : Nat
  api_calls_saved : PyFloat
  cost_saved : PyFloat
  total_requests : Nat
  deriving Repr, DecidableEq

/-- The mutable state of one `AdvancedSmartCache` object.  `entries` and
`analysis_entries` are heaps of all entry dicts ever allocated, modelling
Python object identity: `questions_cache`, `analysis_cache` and
`similar_pool` address entries by heap index. -/
structure CacheState (Q A : Type) where
  entries : List (CacheEntry Q)
  questions_cache : List (String × Nat)
  analysis_entries : List (AnalysisEntry A)
  analysis_cache : List (String × Nat)
  similar_pool : List PoolItem
  max_cache_size : Nat
  ttl : Nat
  stats : Stats
  last_api_call_time : Option Nat
  deriving DecidableEq

/-- Lookup in a Python dict modelled as an association list. -/
def alookup (m : List (String × Nat)) (k : String) : Option Nat :=
  (m.find? (fun p => p.1 == k)).map Prod.snd

/-- Python `m[k] = v`: replace in place if the key exists, else append
(Python dicts preserve insertion order). -/
def ainsert (m : List (String × Nat)) (k : String) (v : Nat) : List (String × Nat) :=
  if (m.find? (fun p => p.1 == k)).isSome then
    m.map (fun p => if p.1 == k then (k, v) else p)
  else m ++ [(k, v)]

/-- Python `del m[k]`. -/
def aerase (m : List (String × Nat)) (k : String) : List (String × Nat) :=
  m.filter (fun p => p.1 != k)

/-- `AdvancedSmartCache._create_fingerprint` (source lines 88-91). -/
def _create_fingerprint (job_role job_description : String) : String :=
  pyStrip (pyLower (job_role ++ "|" ++ job_description))

/-- `AdvancedSmartCache._create_analysis_key` (source lines 93-96): the
description is truncated to its first 500 characters before hashing. -/
def _create_analysis_key (job_description : String) : String :=
  pyStrip (pyLower (pyTake job_description 500))

/-- `AdvancedSmartCache.__init__` (source lines 60-86). -/
def initCache (Q A : Type) (ttl_hours max_cache_size : Nat) : CacheState Q A :=
  { entries := [], questions_cache := [], analysis_entries := [], analysis_cache := [],
    similar_pool := [], max_cache_size := max_cache_size, ttl := ttl_hours * 3600,
    stats := { exact_hits := 0, similar_hits := 0, cache_misses := 0, total_api_calls := 0,
               api_calls_saved := ⟨0, 1⟩, cost_saved := ⟨0, 1⟩, total_requests := 0 },
    last_api_call_time := none }

/-- `AdvancedSmartCache._cleanup_expired` (source lines 105-115): drop every
map key whose entry has `now > expires_at`.  The heaps and the pool are not
touched (Python deletes only the dict keys; the entry objects stay reachable
through `similar_pool`). -/
def _cleanup_expired (s : CacheState Q A) (now : Nat) : CacheState Q A :=
  { s with
    questions_cache := s.questions_cache.filter (fun p =>
      match s.entries[p.2]? with
      | none => true
      | some e => !(e.expires_at < now)),
    analysis_cache := s.analysis_cache.filter (fun p =>
      match s.analysis_entries[p.2]? with
      | none => true
      | some e => !(e.expires_at < now)) }

/-- `AdvancedSmartCache.save_questions` (source lines 119-149). -/
def save_questions (s : CacheState Q A) (now : Nat) (questions : List Q)
    (job_role job_description difficulty : String) : CacheState Q A × String :=
  let fingerprint := _create_fingerprint job_role job_description
  let cache_entry : CacheEntry Q :=
    { fingerprint := fingerprint, job_role := job_role, job_description := job_description,
      difficulty := difficulty, questions := questions,
      created_at := now, expires_at := now + s.ttl, access_count := 0,
      cache_type := "questions" }
  let entryId := s.entries.length
  let pool := s.similar_pool ++
    [{ fingerprint := fingerprint, entryId := entryId, accessed_at := now,
       cache_type := "questions" }]
  let pool :=
    if s.max_cache_size < pool.length then
      (pool.mergeSort (fun a b => decide (b.accessed_at ≤ a.accessed_at))).take s.max_cache_size
    else pool
  ({ s with entries := s.entries ++ [cache_entry],
            questions_cache := ainsert s.questions_cache fingerprint entryId,
            similar_pool := pool },
   fingerprint)

/-- `AdvancedSmartCache.get_exact_questions` (source lines 151-174). -/
def get_exact_questions (s : CacheState Q A) (now : Nat)
    (job_role job_description difficulty : String) : CacheState Q A × Option (List Q) :=
  let fingerprint := _create_fingerprint job_role job_description
  match alookup s.questions_cache fingerprint with
  | none => (s, none)
  | some entryId =>
    match s.entries[entryId]? with
    | none => (s, none)
    | some entry =>
      if entry.expires_at < now then
        ({ s with questions_cache := aerase s.questions_cache fingerprint,
                  stats := { s.stats with cache_misses := s.stats.cache_misses + 1 } },
         none)
      else if entry.difficulty != difficulty then (s, none)
      else
        ({ s with
            entries := List.modify (fun e => { e with access_count := e.access_count + 1 })
              entryId s.entries,
            stats := { s.stats with
              exact_hits := s.stats.exact_hits + 1,
              api_calls_saved := s.stats.api_calls_saved.add ⟨1, 1⟩,
              cost_saved := s.stats.cost_saved.add ⟨1, 1000⟩ } },
         some entry.questions)

/-- The candidate filter of the `get_similar_questions` loop (source lines
183-192): wrong `cache_type`, differing difficulty, and `access_count > 5`
are skipped. -/
def eligibleEntry (s : CacheState Q A) (difficulty : String) (item : PoolItem) :
    Option (CacheEntry Q) :=
  if item.cache_type != "questions" then none
  else match s.entries[item.entryId]? with
    | none => none
    | some entry =>
      if entry.difficulty != difficulty then none
      else if 5 < entry.access_count then none
      else some entry

/-- The `for pool_item in self.similar_pool` loop of `get_similar_questions`
(source lines 178-203), tracking `(best_entry, best_score)`.  Python keeps a
reference to the best pool item; here `i` numbers the pool items so the best
item is tracked by its index. -/
def scanFrom (s : CacheState Q A) (job_role job_description difficulty : String)
    (i : Nat) : List PoolItem → Option Nat × PyFloat → Option Nat × PyFloat
  | [], acc => acc
  | item :: rest, acc =>
    let acc' :=
      match eligibleEntry s difficulty item with
      | none => acc
      | some entry =>
        let similarity_score :=
          calculate_similarity job_role job_description entry.job_role entry.job_description
        if acc.2.blt similarity_score then (some i, similarity_score) else acc
    scanFrom s job_role job_description difficulty (i + 1) rest acc'

/-- The completed loop: best pool index and `best_score` (initially 0). -/
def scanPool (s : CacheState Q A) (job_role job_description difficulty : String) :
    Option Nat × PyFloat :=
  scanFrom s job_role job_description difficulty 0 s.similar_pool (none, ⟨0, 1⟩)

/-- `AdvancedSmartCache.get_similar_questions` (source lines 176-224).  On a
miss the source returns the pair `(None, 0)`. -/
def get_similar_questions (s : CacheState Q A) (now : Nat)
    (job_role job_description difficulty : String) (threshold : PyFloat) :
    CacheState Q A × (Option (List Q) × PyFloat) :=
  let best := scanPool s job_role job_description difficulty
  match best.1 with
  | none =>
    ({ s with stats := { s.stats with cache_misses := s.stats.cache_misses + 1 } },
     (none, ⟨0, 1⟩))
  | some bestIdx =>
    if best.2.blt threshold then
      ({ s with stats := { s.stats with cache_misses := s.stats.cache_misses + 1 } },
       (none, ⟨0, 1⟩))
    else
      match s.similar_pool[bestIdx]? with
      | none => (s, (none, ⟨0, 1⟩))
      | some item =>
        match s.entries[item.entryId]? with
        | none => (s, (none, ⟨0, 1⟩))
        | some entry =>
          let savings : PyFloat :=
            if (⟨80, 1⟩ : PyFloat).ble best.2 then ⟨8, 10000⟩
            else if (⟨70, 1⟩ : PyFloat).ble best.2 then ⟨5, 10000⟩
            else ⟨3, 10000⟩
          ({ s with
              entries := List.modify (fun e => { e with access_count := e.access_count + 1 })
                item.entryId s.entries,
              similar_pool := List.modify (fun it => { it with accessed_at := now })
                bestIdx s.similar_pool,
              stats := { s.stats with
                similar_hits := s.stats.similar_hits + 1,
                api_calls_saved := s.stats.api_calls_saved.add ⟨1, 2⟩,
                cost_saved := s.stats.cost_saved.add savings } },
           (some entry.questions, best.2))

/-- `AdvancedSmartCache.save_analysis` (source lines 228-245). -/
def save_analysis (s : CacheState Q A) (now : Nat) (analysis : A)
    (job_description : String) : CacheState Q A × String :=
  let analysis_key := _create_analysis_key job_description
  let cache_entry : AnalysisEntry A :=
    { analysis_key := analysis_key, job_description := pyTake job_description 500,
      analysis := analysis, created_at := now, expires_at := now + s.ttl,
      access_count := 0, cache_type := "analysis" }
  ({ s with analysis_entries := s.analysis_entries ++ [cache_entry],
            analysis_cache := ainsert s.analysis_cache analysis_key s.analysis_entries.length },
   analysis_key)

/-- `AdvancedSmartCache.get_exact_analysis` (source lines 247-266). -/
def get_exact_analysis (s : CacheState Q A) (now : Nat) (job_description : String) :
    CacheState Q A × Option A :=
  let analysis_key := _create_analysis_key job_description
  match alookup s.analysis_cache analysis_key with
  | none => (s, none)
  | some entryId =>
    match s.analysis_entries[entryId]? with
    | none => (s, none)
    | some entry =>
      if entry.expires_at < now then
        ({ s with analysis_cache := aerase s.analysis_cache analysis_key }, none)
      else
        ({ s with
            analysis_entries := List.modify (fun e => { e with access_count := e.access_count + 1 })
              entryId s.analysis_entries,
            stats := { s.stats with
              exact_hits := s.stats.exact_hits + 1,
              api_calls_saved := s.stats.api_calls_saved.add ⟨1, 1⟩,
              cost_saved := s.stats.cost_saved.add ⟨5, 10000⟩ } },
         some entry.analysis)

/-- Python truthiness of an optional list (`if exact:` / `if similar:` in
`get_smart_response`): `None` and the empty list are both falsy. -/
def pyTruthy (o : Option (List Q)) : Bool :=
  match o with
  | none => false
  | some l => !l.isEmpty

/-- `AdvancedSmartCache.get_smart_response` (source lines 270-289). -/
def get_smart_response (s : CacheState Q A) (now : Nat)
    (job_role job_description difficulty : String) :
    CacheState Q A × (Option (List Q) × String) :=
  let s0 : CacheState Q A :=
    { s with stats := { s.stats with total_requests := s.stats.total_requests + 1 } }
  let exactRes := get_exact_questions s0 now job_role job_description difficulty
  if pyTruthy exactRes.2 then (exactRes.1, (exactRes.2, "exact_match"))
  else
    let simRes := get_similar_questions exactRes.1 now job_role job_description difficulty ⟨65, 1⟩
    if pyTruthy simRes.2.1 then
      if (⟨80, 1⟩ : PyFloat).ble simRes.2.2 then (simRes.1, (simRes.2.1, "high_similarity"))
      else (simRes.1, (simRes.2.1, "medium_similarity"))
    else (simRes.1, (none, "no_match"))

/-- `AdvancedSmartCache.record_api_call` (source lines 293-297). -/
def record_api_call (s : CacheState Q A) (now : Nat) : CacheState Q A :=
  { s with last_api_call_time := some now,
           stats := { s.stats with total_api_calls := s.stats.total_api_calls + 1 } }

/-- `AdvancedSmartCache._calculate_efficiency` (source lines 325-339). -/
def _calculate_efficiency (s : CacheState Q A) : String :=
  if s.stats.total_requests == 0 then "No data yet"
  else
    let hit_rate := PyFloat.div
      ⟨(s.stats.exact_hits + s.stats.similar_hits : Nat), 1⟩
      ⟨(s.stats.total_requests : Nat), 1⟩
    if (⟨8, 10⟩ : PyFloat).ble hit_rate then "Excellent (80%+)"
    else if (⟨6, 10⟩ : PyFloat).ble hit_rate then "Good (60-80%)"
    else if (⟨4, 10⟩ : PyFloat).ble hit_rate then "Fair (40-60%)"
    else "Warming up (<40%)"

/-- The dict returned by `stats_summary`.  The source formats `cache_hit_rate`,
`api_calls_saved` and `cost_saved_dollars` into strings; the numeric values
are modelled, the f-string formatting is not. -/
structure StatsSummary where
  total_requests : Nat
  exact_hits : Nat
  similar_hits : Nat
  total_cache_hits : Nat
  cache_hit_rate : PyFloat
  total_api_calls : Nat
  api_calls_saved : PyFloat
  cost_saved_dollars : PyFloat
  questions_cached : Nat
  analysis_cached : Nat
  cache_efficiency : String
  deriving Repr, DecidableEq

/-- `AdvancedSmartCache.stats_summary` (source lines 299-323): sweeps expired
entries, then reports the counters. -/
def stats_summary (s : CacheState Q A) (now : Nat) : CacheState Q A × StatsSummary :=
  let s := _cleanup_expired s now
  let total_requests := s.stats.total_requests
  let cache_hits := s.stats.exact_hits + s.stats.similar_hits
  let hit_rate : PyFloat :=
    if 0 < total_requests then
      (PyFloat.div ⟨(cache_hits : Nat), 1⟩ ⟨(total_requests : Nat), 1⟩).mul ⟨100, 1⟩
    else ⟨0, 1⟩
  (s,
   { total_requests := total_requests, exact_hits := s.stats.exact_hits,
     similar_hits := s.stats.similar_hits, total_cache_hits := cache_hits,
     cache_hit_rate := hit_rate, total_api_calls := s.stats.total_api_calls,
     api_calls_saved := s.stats.api_calls_saved, cost_saved_dollars := s.stats.cost_saved,
     questions_cached := s.questions_cache.length,
     analysis_cached := s.analysis_cache.length,
     cache_efficiency := _calculate_efficiency s })

/-- One externally invocable cache operation, for stating state invariants
over arbitrary operation sequences. -/
inductive CacheOp (Q A : Type) where
  | save_q (now : Nat) (questions : List Q) (job_role job_description difficulty : String)
  | get_exact_q (now : Nat) (job_role job_description difficulty : String)
  | get_similar_q (now : Nat) (job_role job_description difficulty : String)
      (threshold : PyFloat)
  | smart (now : Nat) (job_role job_description difficulty : String)
  | save_a (now : Nat) (analysis : A) (job_description : String)
  | get_exact_a (now : Nat) (job_description : String)
  | summary (now : Nat)
  | record_call (now : Nat)

/-- State transition of one operation. -/
def applyOp (s : CacheState Q A) : CacheOp Q A → CacheState Q A
  | .save_q now qs r d diff => (save_questions s now qs r d diff).1
  | .get_exact_q now r d diff => (get_exact_questions s now r d diff).1
  | .get_similar_q now r d diff t => (get_similar_questions s now r d diff t).1
  | .smart now r d diff => (get_smart_response s now r d diff).1
  | .save_a now a d => (save_analysis s now a d).1
  | .get_exact_a now d => (get_exact_analysis s now d).1
  | .summary now => (stats_summary s now).1
  | .record_call now => record_api_call s now

/-- Run an operation sequence from a freshly constructed cache. -/
def runOps (Q A : Type) (ttl_hours max_cache_size : Nat) (ops : List (CacheOp Q A)) :
    CacheState Q A :=
  ops.foldl applyOp (initCache Q A ttl_hours max_cache_size)

/-- The questions-cache entry currently stored under the fingerprint of
`(job_role, job_description)`, if any. -/
def exactEntryAt (s : CacheState Q A) (job_role job_description : String) :
    Option (CacheEntry Q) :=
  match alookup s.questions_cache (_create_fingerprint job_role job_description) with
  | none => none
  | some entryId => s.entries[entryId]?

/-! Order facts about the exact-fraction model (valid for the positive
denominators the cache produces). -/

theorem PyFloat.ble_refl (a : PyFloat) : a.ble a = true := by
  simp [PyFloat.ble]

theorem PyFloat.ble_of_blt {a b : PyFloat} (h : a.blt b = true) : a.ble b = true := by
  simp only [PyFloat.blt, PyFloat.ble, decide_eq_true_eq] at *
  omega

theorem PyFloat.ble_of_not_blt {a b : PyFloat} (h : ¬ a.blt b = true) : b.ble a = true := by
  simp only [PyFloat.blt, PyFloat.ble, decide_eq_true_eq] at *
  omega

theorem PyFloat.ble_trans {a b c : PyFloat} (ha : 0 < a.d) (hb : 0 < b.d) (hc : 0 < c.d)
    (h1 : a.ble b = true) (h2 : b.ble c = true) : a.ble c = true := by
  simp only [PyFloat.ble, decide_eq_true_eq] at *
  have H1 := mul_le_mul_of_nonneg_right h1 hc.le
  have H2 := mul_le_mul_of_nonneg_right h2 ha.le
  have H3 : a.n * c.d * b.d ≤ c.n * a.d * b.d := by nlinarith
  exact le_of_mul_le_mul_right H3 hb

theorem PyFloat.beq_of_ble_ble {a b : PyFloat} (h1 : a.ble b = true) (h2 : b.ble a = true) :
    a.beq b = true := by
  simp only [PyFloat.ble, PyFloat.beq, decide_eq_true_eq] at *
  omega

theorem PyFloat.blt_eq_false_of_beq {a b : PyFloat} (h : a.beq b = true) :
    a.blt b = false := by
  simp only [PyFloat.beq, PyFloat.blt, decide_eq_true_eq, decide_eq_false_iff_not] at *
  omega

theorem PyFloat.ble_of_beq {a b : PyFloat} (h : a.beq b = true) : a.ble b = true := by
  simp only [PyFloat.beq, PyFloat.ble, decide_eq_true_eq] at *
  omega

theorem PyFloat.beq_symm {a b : PyFloat} (h : a.beq b = true) : b.beq a = true := by
  simp only [PyFloat.beq, decide_eq_true_eq] at *
  omega

/-- The similarity score always has a positive denominator. -/
theorem calculate_similarity_den_pos (r1 d1 r2 d2 : String) :
    0 < (calculate_similarity r1 d1 r2 d2).d := by
  simp only [calculate_similarity]
  split_ifs with h1 h2
  · decide
  · simp only [PyFloat.mul, PyFloat.div, one_mul, mul_one]
    exact_mod_cast h2
  · decide

/-- The similarity score always has a nonnegative numerator. -/
theorem calculate_similarity_num_nonneg (r1 d1 r2 d2 : String) :
    0 ≤ (calculate_similarity r1 d1 r2 d2).n := by
  simp only [calculate_similarity]
  split_ifs with h1 h2
  · decide
  · simp only [PyFloat.mul, PyFloat.div, one_mul, mul_one]
    positivity
  · decide

/-! Facts about the association-list model of Python dicts. -/

theorem find?_map_update (m : List (String × Nat)) (k : String) (v : Nat)
    (h : (m.find? (fun p => p.1 == k)).isSome = true) :
    (m.map fun p => if p.1 == k then (k, v) else p).find? (fun p => p.1 == k) =
      some (k, v) := by
  induction m with
  | nil => simp at h
  | cons p t ih =>
    by_cases hp : (p.1 == k) = true
    · have hpe : p.1 = k := by rwa [beq_iff_eq] at hp
      simp [List.find?_cons, hpe]
    · rw [Bool.not_eq_true] at hp
      simp only [List.find?_cons, hp] at h
      simp only [List.map_cons, hp, Bool.false_eq_true, if_false, List.find?_cons]
      exact ih h

theorem alookup_ainsert_self (m : List (String × Nat)) (k : String) (v : Nat) :
    alookup (ainsert m k v) k = some v := by
  unfold ainsert alookup
  by_cases h : (m.find? (fun p => p.1 == k)).isSome = true
  · rw [if_pos h, find?_map_update m k v h]
    rfl
  · rw [if_neg h, List.find?_append]
    have hn : m.find? (fun p => p.1 == k) = none := by
      cases hf : m.find? (fun p => p.1 == k)
      · rfl
      · rw [hf] at h; simp at h
    simp [hn]

theorem alookup_aerase_self (m : List (String × Nat)) (k : String) :
    alookup (aerase m k) k = none := by
  unfold alookup aerase
  cases hf : (m.filter (fun p => p.1 != k)).find? (fun p => p.1 == k) with
  | none => rfl
  | some p =>
    have hp := List.find?_some hf
    have hm := List.mem_of_find?_eq_some hf
    rw [List.mem_filter] at hm
    rw [beq_iff_eq] at hp
    rw [bne_iff_ne] at hm
    exact absurd hp hm.2

/-- Unfolding of a successful `exactEntryAt`. -/
theorem exactEntryAt_eq_some {s : CacheState Q A} {r d : String} {e : CacheEntry Q} :
    exactEntryAt s r d = some e ↔
      ∃ i, alookup s.questions_cache (_create_fingerprint r d) = some i ∧
        s.entries[i]? = some e := by
  unfold exactEntryAt
  cases h : alookup s.questions_cache (_create_fingerprint r d) <;> simp [h]

/-- Unfolding of a successful candidate-filter check. -/
theorem eligibleEntry_eq_some {s : CacheState Q A} {diff : String} {item : PoolItem}
    {e : CacheEntry Q} :
    eligibleEntry s diff item = some e ↔
      item.cache_type = "questions" ∧ s.entries[item.entryId]? = some e ∧
        e.difficulty = diff ∧ e.access_count ≤ 5 := by
  unfold eligibleEntry
  by_cases h1 : (item.cache_type != "questions") = true
  · rw [if_pos h1]
    rw [bne_iff_ne] at h1
    simp [h1]
  · rw [if_neg h1]
    rw [Bool.not_eq_true, bne_eq_false_iff_eq] at h1
    cases h2 : s.entries[item.entryId]? with
    | none => simp [h1, h2]
    | some entry =>
      dsimp only
      by_cases h3 : (entry.difficulty != diff) = true
      · rw [if_pos h3]
        rw [bne_iff_ne] at h3
        constructor
        · intro h; simp at h
        · rintro ⟨-, he, hd, -⟩
          rw [Option.some.injEq] at he
          subst he
          exact absurd hd h3
      · rw [if_neg h3]
        rw [Bool.not_eq_true, bne_eq_false_iff_eq] at h3
        by_cases h4 : 5 < entry.access_count
        · rw [if_pos h4]
          constructor
          · intro h; simp at h
          · rintro ⟨-, he, -, hc⟩
            rw [Option.some.injEq] at he
            subst he
            omega
        · rw [if_neg h4]
          constructor
          · intro h
            rw [Option.some.injEq] at h
            subst h
            exact ⟨h1, rfl, h3, by omega⟩
          · rintro ⟨-, he, -, -⟩
            exact he

/-- A non-expired, difficulty-matching stored entry makes `get_exact_questions`
return its payload, bump its `access_count` and record the exact hit. -/
theorem get_exact_questions_hit (s : CacheState Q A) (now : Nat)
    (job_role job_description difficulty : String) (entryId : Nat) (e : CacheEntry Q)
    (hl : alookup s.questions_cache (_create_fingerprint job_role job_description) =
      some entryId)
    (he : s.entries[entryId]? = some e)
    (hexp : ¬ e.expires_at < now) (hdiff : e.difficulty = difficulty) :
    get_exact_questions s now job_role job_description difficulty =
      ({ s with
          entries := List.modify (fun x => { x with access_count := x.access_count + 1 })
            entryId s.entries,
          stats := { s.stats with
            exact_hits := s.stats.exact_hits + 1,
            api_calls_saved := s.stats.api_calls_saved.add ⟨1, 1⟩,
            cost_saved := s.stats.cost_saved.add ⟨1, 1000⟩ } },
       some e.questions) := by
  have hd : (e.difficulty != difficulty) = false := by
    rw [bne_eq_false_iff_eq]; exact hdiff
  simp only [get_exact_questions, hl, he, hd, Bool.false_eq_true, if_false, if_neg hexp]

/-- C8: the analysis key function is deterministic and truncating: two
descriptions that agree on their first 500 characters produce the same
analysis cache key, so descriptions differing only past character 500
collide by design. -/
theorem c8_analysis_key_truncation (d1 d2 : String)
    (h : pyTake d1 500 = pyTake d2 500) :
    _create_analysis_key d1 = _create_analysis_key d2 := by
  unfold _create_analysis_key
  rw [h]

set_option maxRecDepth 100000 in
/-- Witness for C8 at two 501-character descriptions differing only in their
last character. -/
theorem c8_analysis_key_truncation_witness :
    pyTake (String.mk (List.replicate 500 'a' ++ ['b'])) 500 =
      pyTake (String.mk (List.replicate 500 'a' ++ ['c'])) 500 ∧
    String.mk (List.replicate 500 'a' ++ ['b']) ≠
      String.mk (List.replicate 500 'a' ++ ['c']) ∧
    _create_analysis_key (String.mk (List.replicate 500 'a' ++ ['b'])) =
      _create_analysis_key (String.mk (List.replicate 500 'a' ++ ['c'])) :=
  ⟨by decide, by decide,
   c8_analysis_key_truncation (String.mk (List.replicate 500 'a' ++ ['b']))
     (String.mk (List.replicate 500 'a' ++ ['c'])) (by decide)⟩

/-- C5: saving a payload and immediately reading it back with
`get_exact_questions` on the same inputs returns exactly the saved payload
and raises the saved entry's `access_count` from 0 to 1. -/
theorem c5_round_trip (s : CacheState Q A) (now : Nat) (P : List Q) (R D Diff : String)
    (httl : 0 < s.ttl) :
    ∃ e0 e1 : CacheEntry Q,
      exactEntryAt (save_questions s now P R D Diff).1 R D = some e0 ∧
      e0.questions = P ∧ e0.access_count = 0 ∧
      (get_exact_questions (save_questions s now P R D Diff).1 now R D Diff).2 = some P ∧
      exactEntryAt (get_exact_questions (save_questions s now P R D Diff).1 now R D Diff).1
        R D = some e1 ∧
      e1.questions = P ∧ e1.access_count = 1 := by
  have hl : alookup (save_questions s now P R D Diff).1.questions_cache
      (_create_fingerprint R D) = some s.entries.length :=
    alookup_ainsert_self _ _ _
  have he : (save_questions s now P R D Diff).1.entries[s.entries.length]? =
      some { fingerprint := _create_fingerprint R D, job_role := R, job_description := D,
             difficulty := Diff, questions := P, created_at := now,
             expires_at := now + s.ttl, access_count := 0, cache_type := "questions" } :=
    List.getElem?_concat_length _ _
  have hexp : ¬ (now + s.ttl < now) := by omega
  have hhit := get_exact_questions_hit (save_questions s now P R D Diff).1 now R D Diff
    s.entries.length _ hl he hexp rfl
  refine ⟨{ fingerprint := _create_fingerprint R D, job_role := R, job_description := D,
            difficulty := Diff, questions := P, created_at := now,
            expires_at := now + s.ttl, access_count := 0, cache_type := "questions" },
          { fingerprint := _create_fingerprint R D, job_role := R, job_description := D,
            difficulty := Diff, questions := P, created_at := now,
            expires_at := now + s.ttl, access_count := 1, cache_type := "questions" },
          exactEntryAt_eq_some.mpr ⟨s.entries.length, hl, he⟩, rfl, rfl, ?_, ?_, rfl, rfl⟩
  · rw [hhit]
  · rw [hhit]
    refine exactEntryAt_eq_some.mpr ⟨s.entries.length, hl, ?_⟩
    rw [List.getElem?_modify, he]
    simp

/-- C6: an exact lookup past `expires_at` is a miss that deletes the entry
from the questions map (never an error: all operations are total), and after
a sweep no expired entry remains reachable from either map. -/
theorem c6_expiry_self_healing (s : CacheState Q A) (now : Nat) (r d diff : String)
    (e : CacheEntry Q)
    (hent : exactEntryAt s r d = some e) (hexp : e.expires_at < now) :
    (get_exact_questions s now r d diff).2 = none ∧
    alookup (get_exact_questions s now r d diff).1.questions_cache
      (_create_fingerprint r d) = none ∧
    (∀ k i e', alookup (_cleanup_expired s now).questions_cache k = some i →
      s.entries[i]? = some e' → ¬ e'.expires_at < now) ∧
    (∀ k i a', alookup (_cleanup_expired s now).analysis_cache k = some i →
      s.analysis_entries[i]? = some a' → ¬ a'.expires_at < now) := by
  obtain ⟨i, hl, he⟩ := exactEntryAt_eq_some.mp hent
  have hmain : get_exact_questions s now r d diff =
      ({ s with questions_cache := aerase s.questions_cache (_create_fingerprint r d),
                stats := { s.stats with cache_misses := s.stats.cache_misses + 1 } },
       none) := by
    simp only [get_exact_questions, hl, he, if_pos hexp]
  refine ⟨by rw [hmain], ?_, ?_, ?_⟩
  · rw [hmain]
    exact alookup_aerase_self _ _
  · intro k i' e' hl' he'
    simp only [_cleanup_expired, alookup] at hl'
    obtain ⟨p, hfind, hsnd⟩ := Option.map_eq_some'.mp hl'
    have hmem := List.mem_of_find?_eq_some hfind
    rw [List.mem_filter] at hmem
    have hpred := hmem.2
    rw [hsnd] at hpred
    rw [he'] at hpred
    simpa using hpred
  · intro k i' a' hl' he'
    simp only [_cleanup_expired, alookup] at hl'
    obtain ⟨p, hfind, hsnd⟩ := Option.map_eq_some'.mp hl'
    have hmem := List.mem_of_find?_eq_some hfind
    rw [List.mem_filter] at hmem
    have hpred := hmem.2
    rw [hsnd] at hpred
    rw [he'] at hpred
    simpa using hpred

/-- Witness for C6: an entry saved with TTL 0 is expired one second later. -/
theorem c6_expiry_self_healing_witness :
    (let s6 := (save_questions (initCache Nat Nat 0 500) 0 [7] "r" "d" "M").1
     let e6 : CacheEntry Nat :=
       { fingerprint := "r|d", job_role := "r", job_description := "d",
         difficulty := "M", questions := [7], created_at := 0, expires_at := 0,
         access_count := 0, cache_type := "questions" }
     exactEntryAt s6 "r" "d" = some e6 ∧ e6.expires_at < 1 ∧
       ((get_exact_questions s6 1 "r" "d" "M").2 = none ∧
        alookup (get_exact_questions s6 1 "r" "d" "M").1.questions_cache
          (_create_fingerprint "r" "d") = none ∧
        (∀ k i e', alookup (_cleanup_expired s6 1).questions_cache k = some i →
          s6.entries[i]? = some e' → ¬ e'.expires_at < 1) ∧
        (∀ k i a', alookup (_cleanup_expired s6 1).analysis_cache k = some i →
          s6.analysis_entries[i]? = some a' → ¬ a'.expires_at < 1))) :=
  ⟨by decide, by decide,
   c6_expiry_self_healing _ 1 "r" "d" "M"
     { fingerprint := "r|d", job_role := "r", job_description := "d",
       difficulty := "M", questions := [7], created_at := 0, expires_at := 0,
       access_count := 0, cache_type := "questions" }
     (by decide) (by decide)⟩

/-- C1 (amended): whenever a non-expired, difficulty-matching exact entry
with a NON-EMPTY payload exists for the query, `get_smart_response` returns
that entry's payload tagged "exact_match"; a similarity match never
overrides it.  (Amendment forced by the counterexample: for an entry whose
stored payload is the empty list, Python truthiness makes `get_smart_response`
fall through to the similarity path instead of returning "exact_match".) -/
theorem c1_exact_precedence (s : CacheState Q A) (now : Nat)
    (job_role job_description difficulty : String) (e : CacheEntry Q)
    (hent : exactEntryAt s job_role job_description = some e)
    (hexp : ¬ e.expires_at < now) (hdiff : e.difficulty = difficulty)
    (hne : e.questions ≠ []) :
    (get_smart_response s now job_role job_description difficulty).2 =
      (some e.questions, "exact_match") := by
  obtain ⟨i, hl, he⟩ := exactEntryAt_eq_some.mp hent
  have hhit := get_exact_questions_hit
    { s with stats := { s.stats with total_requests := s.stats.total_requests + 1 } }
    now job_role job_description difficulty i e hl he hexp hdiff
  have htr : pyTruthy (some e.questions) = true := by
    cases hq : e.questions with
    | nil => exact absurd hq hne
    | cons a l => simp [pyTruthy, hq]
  simp only [get_smart_response, hhit, htr, if_true]

/-- Counterexample to C1 as stated: an exact, non-expired,
difficulty-matching entry exists (with payload `[]`), yet `get_smart_response`
returns `(none, "no_match")` rather than the entry's payload tagged
"exact_match". -/
theorem c1_counterexample :
    (let s1 := (save_questions (initCache Nat Nat 24 500) 0 ([] : List Nat)
       "python dev" "x" "Easy").1
     let e1 : CacheEntry Nat :=
       { fingerprint := "python dev|x", job_role := "python dev", job_description := "x",
         difficulty := "Easy", questions := [], created_at := 0, expires_at := 86400,
         access_count := 0, cache_type := "questions" }
     exactEntryAt s1 "python dev" "x" = some e1 ∧ ¬ e1.expires_at < 0 ∧
       e1.difficulty = "Easy" ∧
       (get_smart_response s1 0 "python dev" "x" "Easy").2 = (none, "no_match") ∧
       (get_smart_response s1 0 "python dev" "x" "Easy").2 ≠
         (some e1.questions, "exact_match")) := by
  exact ⟨by decide, by decide, rfl, by decide, by decide⟩

/-- Witness for C1 at a concrete save followed by the same query. -/
theorem c1_exact_precedence_witness :
    (let s1 := (save_questions (initCache Nat Nat 24 500) 0 [3] "python dev" "x" "Easy").1
     let e1 : CacheEntry Nat :=
       { fingerprint := "python dev|x", job_role := "python dev", job_description := "x",
         difficulty := "Easy", questions := [3], created_at := 0, expires_at := 86400,
         access_count := 0, cache_type := "questions" }
     exactEntryAt s1 "python dev" "x" = some e1 ∧ ¬ e1.expires_at < 0 ∧
       e1.difficulty = "Easy" ∧ e1.questions ≠ [] ∧
       (get_smart_response s1 0 "python dev" "x" "Easy").2 =
         (some e1.questions, "exact_match")) :=
  ⟨by decide, by decide, rfl, by decide,
   c1_exact_precedence _ 0 "python dev" "x" "Easy" _ (by decide) (by decide) rfl (by decide)⟩

/-- C10: an exact-matching, non-expired, difficulty-matching entry whose
stored payload is the empty list never yields the tag "exact_match": the
lookup falls through to the similarity path (ending in one of the three
other tags), even though the exact lookup has already incremented the
entry's `access_count` and the exact-hit counter. -/
theorem c10_empty_payload_falls_through (s : CacheState Q A) (now : Nat)
    (job_role job_description difficulty : String) (e : CacheEntry Q)
    (hent : exactEntryAt s job_role job_description = some e)
    (hexp : ¬ e.expires_at < now) (hdiff : e.difficulty = difficulty)
    (hemp : e.questions = []) :
    (get_smart_response s now job_role job_description difficulty).2.2 ≠ "exact_match" ∧
    ((get_smart_response s now job_role job_description difficulty).2.2 = "high_similarity" ∨
     (get_smart_response s now job_role job_description difficulty).2.2 = "medium_similarity" ∨
     (get_smart_response s now job_role job_description difficulty).2.2 = "no_match") ∧
    (get_exact_questions
        { s with stats := { s.stats with total_requests := s.stats.total_requests + 1 } }
        now job_role job_description difficulty).2 = some [] ∧
    (get_exact_questions
        { s with stats := { s.stats with total_requests := s.stats.total_requests + 1 } }
        now job_role job_description difficulty).1.stats.exact_hits =
      s.stats.exact_hits + 1 ∧
    exactEntryAt (get_exact_questions
        { s with stats := { s.stats with total_requests := s.stats.total_requests + 1 } }
        now job_role job_description difficulty).1 job_role job_description =
      some { e with access_count := e.access_count + 1 } := by
  obtain ⟨i, hl, he⟩ := exactEntryAt_eq_some.mp hent
  have hhit := get_exact_questions_hit
    { s with stats := { s.stats with total_requests := s.stats.total_requests + 1 } }
    now job_role job_description difficulty i e hl he hexp hdiff
  have htr : pyTruthy (Q := Q) (some e.questions) = false := by
    simp [pyTruthy, hemp]
  refine ⟨?_, ?_, by rw [hhit, hemp], by rw [hhit], ?_⟩
  · simp only [get_smart_response, hhit, htr, Bool.false_eq_true, if_false]
    split
    · split
      · exact (by decide : ("high_similarity" : String) ≠ "exact_match")
      · exact (by decide : ("medium_similarity" : String) ≠ "exact_match")
    · exact (by decide : ("no_match" : String) ≠ "exact_match")
  · simp only [get_smart_response, hhit, htr, Bool.false_eq_true, if_false]
    split
    · split
      · exact Or.inl rfl
      · exact Or.inr (Or.inl rfl)
    · exact Or.inr (Or.inr rfl)
  · rw [hhit]
    refine exactEntryAt_eq_some.mpr ⟨i, hl, ?_⟩
    rw [List.getElem?_modify, he]
    simp

/-- Witness for C10: a saved empty payload makes the smart response fall
through to "no_match" while still counting an exact hit. -/
theorem c10_empty_payload_falls_through_witness :
    (let s1 := (save_questions (initCache Nat Nat 24 500) 0 ([] : List Nat)
       "python dev" "x" "Easy").1
     let e1 : CacheEntry Nat :=
       { fingerprint := "python dev|x", job_role := "python dev", job_description := "x",
         difficulty := "Easy", questions := [], created_at := 0, expires_at := 86400,
         access_count := 0, cache_type := "questions" }
     let s0 := { s1 with stats :=
       { s1.stats with total_requests := s1.stats.total_requests + 1 } }
     exactEntryAt s1 "python dev" "x" = some e1 ∧ ¬ e1.expires_at < 0 ∧
       e1.difficulty = "Easy" ∧ e1.questions = [] ∧
       ((get_smart_response s1 0 "python dev" "x" "Easy").2.2 ≠ "exact_match" ∧
        ((get_smart_response s1 0 "python dev" "x" "Easy").2.2 = "high_similarity" ∨
         (get_smart_response s1 0 "python dev" "x" "Easy").2.2 = "medium_similarity" ∨
         (get_smart_response s1 0 "python dev" "x" "Easy").2.2 = "no_match") ∧
        (get_exact_questions s0 0 "python dev" "x" "Easy").2 = some [] ∧
        (get_exact_questions s0 0 "python dev" "x" "Easy").1.stats.exact_hits =
          s1.stats.exact_hits + 1 ∧
        exactEntryAt (get_exact_questions s0 0 "python dev" "x" "Easy").1
          "python dev" "x" = some { e1 with access_count := e1.access_count + 1 })) :=
  ⟨by decide, by decide, rfl, rfl,
   c10_empty_payload_falls_through _ 0 "python dev" "x" "Easy" _
     (by decide) (by decide) rfl rfl⟩

/-- Witness for C5 at a fresh cache. -/
theorem c5_round_trip_witness :
    0 < (initCache Nat Nat 24 500).ttl ∧
    (∃ e0 e1 : CacheEntry Nat,
      exactEntryAt (save_questions (initCache Nat Nat 24 500) 5 [1, 2] "r" "d" "M").1 "r" "d"
        = some e0 ∧
      e0.questions = [1, 2] ∧ e0.access_count = 0 ∧
      (get_exact_questions (save_questions (initCache Nat Nat 24 500) 5 [1, 2] "r" "d" "M").1
        5 "r" "d" "M").2 = some [1, 2] ∧
      exactEntryAt (get_exact_questions
          (save_questions (initCache Nat Nat 24 500) 5 [1, 2] "r" "d" "M").1 5 "r" "d" "M").1
        "r" "d" = some e1 ∧
      e1.questions = [1, 2] ∧ e1.access_count = 1) :=
  ⟨by decide, c5_round_trip (initCache Nat Nat 24 500) 5 [1, 2] "r" "d" "M" (by decide)⟩

/-- One unfolding step of the candidate loop. -/
theorem scanFrom_cons (s : CacheState Q A) (r d diff : String) (i : Nat)
    (item : PoolItem) (rest : List PoolItem) (acc : Option Nat × PyFloat) :
    scanFrom s r d diff i (item :: rest) acc =
      scanFrom s r d diff (i + 1) rest
        (match eligibleEntry s diff item with
         | none => acc
         | some entry =>
           if acc.2.blt (calculate_similarity r d entry.job_role entry.job_description)
           then (some i, calculate_similarity r d entry.job_role entry.job_description)
           else acc) := rfl

/-- If the loop ends with a best item, the best is either the incoming
accumulator or an eligible pool candidate whose score is the final best
score. -/
theorem scanFrom_eq_some (s : CacheState Q A) (r d diff : String) :
    ∀ (l : List PoolItem) (i : Nat) (acc : Option Nat × PyFloat) (j : Nat) (sc : PyFloat),
      scanFrom s r d diff i l acc = (some j, sc) →
      acc = (some j, sc) ∨
      ∃ k item entry, l[k]? = some item ∧ i + k = j ∧
        eligibleEntry s diff item = some entry ∧
        calculate_similarity r d entry.job_role entry.job_description = sc := by
  intro l
  induction l with
  | nil =>
    intro i acc j sc h
    exact Or.inl h
  | cons item rest ih =>
    intro i acc j sc h
    rw [scanFrom_cons] at h
    rcases helig : eligibleEntry s diff item with _ | entry
    · simp only [helig] at h
      rcases ih (i + 1) acc j sc h with hacc | ⟨k, it, en, hk, hik, he2, hsc⟩
      · exact Or.inl hacc
      · exact Or.inr ⟨k + 1, it, en, by simpa using hk, by omega, he2, hsc⟩
    · simp only [helig] at h
      by_cases hup :
          acc.2.blt (calculate_similarity r d entry.job_role entry.job_description) = true
      · rw [if_pos hup] at h
        rcases ih (i + 1) _ j sc h with hacc | ⟨k, it, en, hk, hik, he2, hsc⟩
        · rw [Prod.mk.injEq] at hacc
          obtain ⟨h1, h2⟩ := hacc
          rw [Option.some.injEq] at h1
          exact Or.inr ⟨0, item, entry, by simp, by omega, helig, h2⟩
        · exact Or.inr ⟨k + 1, it, en, by simpa using hk, by omega, he2, hsc⟩
      · rw [if_neg hup] at h
        rcases ih (i + 1) acc j sc h with hacc | ⟨k, it, en, hk, hik, he2, hsc⟩
        · exact Or.inl hacc
        · exact Or.inr ⟨k + 1, it, en, by simpa using hk, by omega, he2, hsc⟩

/-- If the loop ends with no best item, the accumulator came in that way and
the best score is unchanged. -/
theorem scanFrom_eq_none (s : CacheState Q A) (r d diff : String) :
    ∀ (l : List PoolItem) (i : Nat) (acc : Option Nat × PyFloat) (sc : PyFloat),
      scanFrom s r d diff i l acc = (none, sc) → acc = (none, sc) := by
  intro l
  induction l with
  | nil => intro i acc sc h; exact h
  | cons item rest ih =>
    intro i acc sc h
    rw [scanFrom_cons] at h
    rcases helig : eligibleEntry s diff item with _ | entry
    · simp only [helig] at h
      exact ih (i + 1) acc sc h
    · simp only [helig] at h
      by_cases hup :
          acc.2.blt (calculate_similarity r d entry.job_role entry.job_description) = true
      · rw [if_pos hup] at h
        have := ih (i + 1) _ sc h
        rw [Prod.mk.injEq] at this
        exact absurd this.1 (by simp)
      · rw [if_neg hup] at h
        exact ih (i + 1) acc sc h

/-- The final best score dominates the incoming accumulator and every
eligible candidate's score (denominators stay positive throughout). -/
theorem scanFrom_bounds (s : CacheState Q A) (r d diff : String) :
    ∀ (l : List PoolItem) (i : Nat) (acc : Option Nat × PyFloat), 0 < acc.2.d →
      0 < (scanFrom s r d diff i l acc).2.d ∧
      acc.2.ble (scanFrom s r d diff i l acc).2 = true ∧
      (∀ (k : Nat) (item : PoolItem) (entry : CacheEntry Q),
        l[k]? = some item → eligibleEntry s diff item = some entry →
        (calculate_similarity r d entry.job_role entry.job_description).ble
          (scanFrom s r d diff i l acc).2 = true) := by
  intro l
  induction l with
  | nil =>
    intro i acc hd
    refine ⟨hd, PyFloat.ble_refl _, ?_⟩
    intro k item entry hk
    simp at hk
  | cons item rest ih =>
    intro i acc hd
    rcases helig : eligibleEntry s diff item with _ | entry
    · simp only [scanFrom_cons, helig]
      have H := ih (i + 1) acc hd
      refine ⟨H.1, H.2.1, ?_⟩
      intro k it en hk helig'
      cases k with
      | zero =>
        rw [List.getElem?_cons_zero, Option.some.injEq] at hk
        subst hk
        rw [helig] at helig'
        cases helig'
      | succ k =>
        rw [List.getElem?_cons_succ] at hk
        exact H.2.2 k it en hk helig'
    · simp only [scanFrom_cons, helig]
      by_cases hup :
          acc.2.blt (calculate_similarity r d entry.job_role entry.job_description) = true
      · rw [if_pos hup]
        have hsd := calculate_similarity_den_pos r d entry.job_role entry.job_description
        have H := ih (i + 1)
          (some i, calculate_similarity r d entry.job_role entry.job_description) hsd
        refine ⟨H.1, ?_, ?_⟩
        · exact PyFloat.ble_trans hd hsd H.1 (PyFloat.ble_of_blt hup) H.2.1
        · intro k it en hk helig'
          cases k with
          | zero =>
            rw [List.getElem?_cons_zero, Option.some.injEq] at hk
            subst hk
            rw [helig, Option.some.injEq] at helig'
            subst helig'
            exact H.2.1
          | succ k =>
            rw [List.getElem?_cons_succ] at hk
            exact H.2.2 k it en hk helig'
      · rw [if_neg hup]
        have hsd := calculate_similarity_den_pos r d entry.job_role entry.job_description
        have H := ih (i + 1) acc hd
        refine ⟨H.1, H.2.1, ?_⟩
        intro k it en hk helig'
        cases k with
        | zero =>
          rw [List.getElem?_cons_zero, Option.some.injEq] at hk
          subst hk
          rw [helig, Option.some.injEq] at helig'
          subst helig'
          exact PyFloat.ble_trans hsd hd H.1 (PyFloat.ble_of_not_blt hup) H.2.1
        | succ k =>
          rw [List.getElem?_cons_succ] at hk
          exact H.2.2 k it en hk helig'

/-- C3: `get_similar_questions` never returns the payload of a pool entry
whose `access_count` exceeds 5: any returned payload belongs to a pool
candidate that passed the eligibility filter, in particular with
`access_count ≤ 5` (and matching difficulty) at lookup time. -/
theorem c3_similarity_access_cap (s : CacheState Q A) (now : Nat) (r d diff : String)
    (threshold : PyFloat) (qs : List Q)
    (h : (get_similar_questions s now r d diff threshold).2.1 = some qs) :
    ∃ (bi : Nat) (item : PoolItem) (entry : CacheEntry Q),
      s.similar_pool[bi]? = some item ∧
      s.entries[item.entryId]? = some entry ∧
      entry.access_count ≤ 5 ∧ entry.difficulty = diff ∧ entry.questions = qs := by
  simp only [get_similar_questions] at h
  rcases hscan : (scanPool s r d diff).1 with _ | bi
  · simp only [hscan] at h
    simp at h
  · simp only [hscan] at h
    by_cases hblt : (scanPool s r d diff).2.blt threshold = true
    · rw [if_pos hblt] at h
      simp at h
    · rw [if_neg hblt] at h
      rcases hitem : s.similar_pool[bi]? with _ | item
      · simp only [hitem] at h
        simp at h
      · simp only [hitem] at h
        rcases hent : s.entries[item.entryId]? with _ | entry
        · simp only [hent] at h
          simp at h
        · simp only [hent] at h
          have hq : entry.questions = qs := by simpa using h
          have hpair : scanFrom s r d diff 0 s.similar_pool (none, ⟨0, 1⟩) =
              (some bi, (scanPool s r d diff).2) := by
            rw [← hscan]
            exact Prod.mk.eta.symm
          rcases scanFrom_eq_some s r d diff s.similar_pool 0 (none, ⟨0, 1⟩) bi
              (scanPool s r d diff).2 hpair with hacc | ⟨k, it, en, hk, hik, helig, hsc⟩
          · simp at hacc
          · have hkbi : k = bi := by omega
            subst hkbi
            rw [hitem, Option.some.injEq] at hk
            subst hk
            obtain ⟨-, hheap, hdiff2, hcap⟩ := eligibleEntry_eq_some.mp helig
            rw [hent, Option.some.injEq] at hheap
            subst hheap
            exact ⟨k, item, entry, hitem, hent, hcap, hdiff2, hq⟩

/-- Witness for C3 at a concrete similarity hit. -/
theorem c3_similarity_access_cap_witness :
    (let sW := (save_questions (initCache Nat Nat 24 500) 0 [7] "python dev" "" "M").1
     (get_similar_questions sW 1 "python dev" "" "M" ⟨65, 1⟩).2.1 = some [7] ∧
     (∃ (bi : Nat) (item : PoolItem) (entry : CacheEntry Nat),
       sW.similar_pool[bi]? = some item ∧
       sW.entries[item.entryId]? = some entry ∧
       entry.access_count ≤ 5 ∧ entry.difficulty = "M" ∧ entry.questions = [7])) :=
  ⟨by decide,
   c3_similarity_access_cap
     (save_questions (initCache Nat Nat 24 500) 0 [7] "python dev" "" "M").1
     1 "python dev" "" "M" ⟨65, 1⟩ [7] (by decide)⟩

theorem PyFloat.beq_trans {a b c : PyFloat} (ha : 0 < a.d) (hb : 0 < b.d) (hc : 0 < c.d)
    (h1 : a.beq b = true) (h2 : b.beq c = true) : a.beq c = true := by
  simp only [PyFloat.beq, decide_eq_true_eq] at *
  have h3 : a.n * c.d * b.d = c.n * a.d * b.d := by
    linear_combination c.d * h1 + a.d * h2
  exact mul_right_cancel₀ (by omega : b.d ≠ 0) h3

theorem PyFloat.pos_of_beq_pos {a t : PyFloat} (had : 0 < a.d) (htd : 0 < t.d)
    (htp : (⟨0, 1⟩ : PyFloat).blt t = true) (h : a.beq t = true) :
    (⟨0, 1⟩ : PyFloat).blt a = true := by
  simp only [PyFloat.blt, PyFloat.beq, decide_eq_true_eq] at *
  simp only [zero_mul, mul_one] at htp ⊢
  nlinarith [mul_pos htp had]

/-- C4 (amended): in `get_similar_questions` the threshold acts as an
inclusive lower bound whenever the score at stake is positive: for a positive
threshold (e.g. the default 65), if some eligible candidate scores exactly
`threshold` and no eligible candidate scores higher, the lookup is a hit
returning an eligible candidate's payload together with a score equal to the
threshold; and if every eligible candidate scores strictly below `threshold`
(in particular if no candidate exists) the lookup is a miss returning
`(None, 0)`.  (Amendment forced by the counterexample: with `threshold = 0`
and a best candidate scoring exactly 0, the loop's `best_score = 0`
initialisation combined with the strict `>` comparison leaves
`best_match = None`, so the lookup misses although the best score equals the
threshold.) -/
theorem c4_threshold_inclusive (s : CacheState Q A) (now : Nat) (r d diff : String)
    (threshold : PyFloat) (htd : 0 < threshold.d)
    (htp : (⟨0, 1⟩ : PyFloat).blt threshold = true) :
    ((∃ (bj : Nat) (bitem : PoolItem) (bentry : CacheEntry Q),
        s.similar_pool[bj]? = some bitem ∧ eligibleEntry s diff bitem = some bentry ∧
        (calculate_similarity r d bentry.job_role bentry.job_description).beq threshold
          = true ∧
        (∀ (k : Nat) (item : PoolItem) (entry : CacheEntry Q),
          s.similar_pool[k]? = some item → eligibleEntry s diff item = some entry →
          (calculate_similarity r d entry.job_role entry.job_description).ble
            (calculate_similarity r d bentry.job_role bentry.job_description) = true)) →
      ∃ (item : PoolItem) (entry : CacheEntry Q) (k : Nat),
        s.similar_pool[k]? = some item ∧ eligibleEntry s diff item = some entry ∧
        (get_similar_questions s now r d diff threshold).2 =
          (some entry.questions,
            calculate_similarity r d entry.job_role entry.job_description) ∧
        (calculate_similarity r d entry.job_role entry.job_description).beq threshold
          = true) ∧
    ((∀ (k : Nat) (item : PoolItem) (entry : CacheEntry Q),
        s.similar_pool[k]? = some item → eligibleEntry s diff item = some entry →
        (calculate_similarity r d entry.job_role entry.job_description).blt threshold
          = true) →
      (get_similar_questions s now r d diff threshold).2 = (none, ⟨0, 1⟩)) := by
  have HB := scanFrom_bounds s r d diff s.similar_pool 0 (none, ⟨0, 1⟩) (by decide)
  constructor
  · rintro ⟨bj, bitem, bentry, hbj, hbelig, hbeq, hmax⟩
    have hsbd : 0 < (calculate_similarity r d bentry.job_role bentry.job_description).d :=
      calculate_similarity_den_pos r d bentry.job_role bentry.job_description
    have hsbpos : (⟨0, 1⟩ : PyFloat).blt
        (calculate_similarity r d bentry.job_role bentry.job_description) = true :=
      PyFloat.pos_of_beq_pos hsbd htd htp hbeq
    have hub : (calculate_similarity r d bentry.job_role bentry.job_description).ble
        (scanPool s r d diff).2 = true := HB.2.2 bj bitem bentry hbj hbelig
    rcases hscan : (scanPool s r d diff).1 with _ | bi
    · exfalso
      have hpair : scanFrom s r d diff 0 s.similar_pool (none, ⟨0, 1⟩) =
          (none, (scanPool s r d diff).2) := by
        have hsp : scanPool s r d diff =
            ((scanPool s r d diff).1, (scanPool s r d diff).2) := Prod.mk.eta.symm
        rw [hscan] at hsp
        exact hsp
      have hacc := scanFrom_eq_none s r d diff s.similar_pool 0 (none, ⟨0, 1⟩)
        (scanPool s r d diff).2 hpair
      have h2 : (scanPool s r d diff).2 = ⟨0, 1⟩ := by
        have := congrArg Prod.snd hacc
        simpa using this.symm
      rw [h2] at hub
      simp only [PyFloat.ble, PyFloat.blt, decide_eq_true_eq] at hub hsbpos
      omega
    · have hpair : scanFrom s r d diff 0 s.similar_pool (none, ⟨0, 1⟩) =
          (some bi, (scanPool s r d diff).2) := by
        rw [← hscan]
        exact Prod.mk.eta.symm
      rcases scanFrom_eq_some s r d diff s.similar_pool 0 (none, ⟨0, 1⟩) bi
          (scanPool s r d diff).2 hpair with hacc | ⟨k, it, en, hk, hik, helig, hsc⟩
      · simp at hacc
      · have hsed : 0 < (calculate_similarity r d en.job_role en.job_description).d :=
          calculate_similarity_den_pos r d en.job_role en.job_description
        have hle : (calculate_similarity r d en.job_role en.job_description).ble
            (calculate_similarity r d bentry.job_role bentry.job_description) = true :=
          hmax k it en hk helig
        have hge : (calculate_similarity r d bentry.job_role bentry.job_description).ble
            (calculate_similarity r d en.job_role en.job_description) = true := by
          rw [hsc]
          exact hub
        have hbeq2 : (calculate_similarity r d en.job_role en.job_description).beq
            threshold = true :=
          PyFloat.beq_trans hsed hsbd htd (PyFloat.beq_of_ble_ble hle hge) hbeq
        have hnblt : (scanPool s r d diff).2.blt threshold = false := by
          rw [← hsc]
          exact PyFloat.blt_eq_false_of_beq hbeq2
        refine ⟨it, en, k, hk, helig, ?_, hbeq2⟩
        simp only [get_similar_questions, hscan, hnblt, Bool.false_eq_true, if_false]
        have hkbi : k = bi := by omega
        subst hkbi
        simp only [hk]
        obtain ⟨-, hheap, -, -⟩ := eligibleEntry_eq_some.mp helig
        simp only [hheap]
        rw [hsc]
  · intro hmiss
    rcases hscan : (scanPool s r d diff).1 with _ | bi
    · simp only [get_similar_questions, hscan]
    · have hpair : scanFrom s r d diff 0 s.similar_pool (none, ⟨0, 1⟩) =
          (some bi, (scanPool s r d diff).2) := by
        rw [← hscan]
        exact Prod.mk.eta.symm
      rcases scanFrom_eq_some s r d diff s.similar_pool 0 (none, ⟨0, 1⟩) bi
          (scanPool s r d diff).2 hpair with hacc | ⟨k, it, en, hk, hik, helig, hsc⟩
      · simp at hacc
      · have hblt : (scanPool s r d diff).2.blt threshold = true := by
          rw [← hsc]
          exact hmiss k it en hk helig
        simp only [get_similar_questions, hscan, hblt, if_true]

/-- Counterexample to C4 as stated: with threshold 0 the only (hence
best-scoring) eligible candidate scores exactly the threshold, yet the
lookup is a miss, because the loop initialises `best_score = 0` and compares
with a strict `>`. -/
theorem c4_counterexample :
    (let sc := (save_questions (initCache Nat Nat 24 500) 0 [9] "python dev" "" "M").1
     let item : PoolItem := ⟨"python dev|", 0, 0, "questions"⟩
     let e : CacheEntry Nat :=
       { fingerprint := "python dev|", job_role := "python dev", job_description := "",
         difficulty := "M", questions := [9], created_at := 0, expires_at := 86400,
         access_count := 0, cache_type := "questions" }
     sc.similar_pool = [item] ∧ eligibleEntry sc "M" item = some e ∧
       (calculate_similarity "java dev" "" e.job_role e.job_description).beq ⟨0, 1⟩ = true ∧
       (get_similar_questions sc 0 "java dev" "" "M" ⟨0, 1⟩).2 = (none, ⟨0, 1⟩)) :=
  ⟨by decide, by decide, by decide, by decide⟩

/-- Witness for C4: with threshold 50 and a keyword-free candidate whose
score is the neutral default 50, the lookup hits at exactly the threshold. -/
theorem c4_threshold_inclusive_witness :
    0 < (⟨50, 1⟩ : PyFloat).d ∧
    (⟨0, 1⟩ : PyFloat).blt ⟨50, 1⟩ = true ∧
    (∃ (item : PoolItem) (entry : CacheEntry Nat) (k : Nat),
      (save_questions (initCache Nat Nat 24 500) 0 [9] "zzz" "" "M").1.similar_pool[k]? =
        some item ∧
      eligibleEntry (save_questions (initCache Nat Nat 24 500) 0 [9] "zzz" "" "M").1 "M"
        item = some entry ∧
      (get_similar_questions (save_questions (initCache Nat Nat 24 500) 0 [9] "zzz" "" "M").1
          3 "www" "" "M" ⟨50, 1⟩).2 =
        (some entry.questions,
          calculate_similarity "www" "" entry.job_role entry.job_description) ∧
      (calculate_similarity "www" "" entry.job_role entry.job_description).beq ⟨50, 1⟩
        = true) :=
  ⟨by decide, by decide,
   (c4_threshold_inclusive (save_questions (initCache Nat Nat 24 500) 0 [9] "zzz" "" "M").1
       3 "www" "" "M" ⟨50, 1⟩ (by decide) (by decide)).1
     ⟨0, ⟨"zzz|", 0, 0, "questions"⟩,
      { fingerprint := "zzz|", job_role := "zzz", job_description := "",
        difficulty := "M", questions := [9], created_at := 0, expires_at := 86400,
        access_count := 0, cache_type := "questions" },
      by decide, by decide, by decide, by
        intro k item entry hk helig
        have hp : (save_questions (initCache Nat Nat 24 500) 0 [9] "zzz" "" "M").1.similar_pool
            = [⟨"zzz|", 0, 0, "questions"⟩] := by decide
        rw [hp] at hk
        cases k with
        | zero =>
          rw [List.getElem?_cons_zero, Option.some.injEq] at hk
          subst hk
          have he : eligibleEntry
              (save_questions (initCache Nat Nat 24 500) 0 [9] "zzz" "" "M").1 "M"
              ⟨"zzz|", 0, 0, "questions"⟩ =
              some { fingerprint := "zzz|", job_role := "zzz", job_description := "",
                     difficulty := "M", questions := [9], created_at := 0,
                     expires_at := 86400, access_count := 0,
                     cache_type := "questions" } := by decide
          rw [he, Option.some.injEq] at helig
          subst helig
          decide
        | succ k =>
          rw [List.getElem?_cons_succ] at hk
          simp at hk⟩⟩


/-! Frame facts: which state fields each operation can change. -/

theorem get_exact_questions_state (s : CacheState Q A) (now : Nat) (r d diff : String) :
    ∃ qc en st, (get_exact_questions s now r d diff).1 =
      { s with questions_cache := qc, entries := en, stats := st } := by
  simp only [get_exact_questions]
  repeat' split
  all_goals exact ⟨_, _, _, rfl⟩

theorem get_similar_questions_state (s : CacheState Q A) (now : Nat) (r d diff : String)
    (t : PyFloat) :
    ∃ en pool st, (get_similar_questions s now r d diff t).1 =
      { s with entries := en, similar_pool := pool, stats := st } ∧
      pool.length = s.similar_pool.length := by
  simp only [get_similar_questions]
  repeat' split
  all_goals refine ⟨_, _, _, rfl, ?_⟩
  all_goals simp [List.length_modify]

theorem get_exact_analysis_state (s : CacheState Q A) (now : Nat) (d : String) :
    ∃ ac ae st, (get_exact_analysis s now d).1 =
      { s with analysis_cache := ac, analysis_entries := ae, stats := st } := by
  simp only [get_exact_analysis]
  repeat' split
  all_goals exact ⟨_, _, _, rfl⟩

theorem get_smart_response_state (s : CacheState Q A) (now : Nat) (r d diff : String) :
    ∃ en qc pool st, (get_smart_response s now r d diff).1 =
      { s with entries := en, questions_cache := qc, similar_pool := pool, stats := st } ∧
      pool.length = s.similar_pool.length := by
  obtain ⟨qc1, en1, st1, h1⟩ := get_exact_questions_state
    { s with stats := { s.stats with total_requests := s.stats.total_requests + 1 } }
    now r d diff
  obtain ⟨en2, pool2, st2, h2, hlen2⟩ := get_similar_questions_state
    (get_exact_questions
      { s with stats := { s.stats with total_requests := s.stats.total_requests + 1 } }
      now r d diff).1 now r d diff ⟨65, 1⟩
  simp only [get_smart_response]
  split
  · exact ⟨en1, qc1, s.similar_pool, st1, by rw [h1], rfl⟩
  · split
    · split
      · exact ⟨en2, qc1, pool2, st2, by rw [h2, h1], by rw [hlen2, h1]⟩
      · exact ⟨en2, qc1, pool2, st2, by rw [h2, h1], by rw [hlen2, h1]⟩
    · exact ⟨en2, qc1, pool2, st2, by rw [h2, h1], by rw [hlen2, h1]⟩

theorem save_questions_pool_len (s : CacheState Q A) (now : Nat) (qs : List Q)
    (r d diff : String) (h : s.similar_pool.length ≤ s.max_cache_size) :
    (save_questions s now qs r d diff).1.similar_pool.length ≤ s.max_cache_size := by
  simp only [save_questions]
  split_ifs with ho
  · simp only [List.length_take]
    exact min_le_left _ _
  · simp only [List.length_append] at ho ⊢
    omega

theorem applyOp_max (s : CacheState Q A) (op : CacheOp Q A) :
    (applyOp s op).max_cache_size = s.max_cache_size := by
  cases op with
  | save_q now qs r d diff => rfl
  | get_exact_q now r d diff =>
    obtain ⟨qc, en, st, h1⟩ := get_exact_questions_state s now r d diff
    simp only [applyOp, h1]
  | get_similar_q now r d diff t =>
    obtain ⟨en, pool, st, h1, -⟩ := get_similar_questions_state s now r d diff t
    simp only [applyOp, h1]
  | smart now r d diff =>
    obtain ⟨en, qc, pool, st, h1, -⟩ := get_smart_response_state s now r d diff
    simp only [applyOp, h1]
  | save_a now a d => rfl
  | get_exact_a now d =>
    obtain ⟨ac, ae, st, h1⟩ := get_exact_analysis_state s now d
    simp only [applyOp, h1]
  | summary now => rfl
  | record_call now => rfl

theorem applyOp_pool_le (s : CacheState Q A) (op : CacheOp Q A)
    (h : s.similar_pool.length ≤ s.max_cache_size) :
    (applyOp s op).similar_pool.length ≤ s.max_cache_size := by
  cases op with
  | save_q now qs r d diff => exact save_questions_pool_len s now qs r d diff h
  | get_exact_q now r d diff =>
    obtain ⟨qc, en, st, h1⟩ := get_exact_questions_state s now r d diff
    simp only [applyOp, h1]
    exact h
  | get_similar_q now r d diff t =>
    obtain ⟨en, pool, st, h1, hlen⟩ := get_similar_questions_state s now r d diff t
    simp only [applyOp, h1]
    simpa [hlen] using h
  | smart now r d diff =>
    obtain ⟨en, qc, pool, st, h1, hlen⟩ := get_smart_response_state s now r d diff
    simp only [applyOp, h1]
    simpa [hlen] using h
  | save_a now a d => exact h
  | get_exact_a now d =>
    obtain ⟨ac, ae, st, h1⟩ := get_exact_analysis_state s now d
    simp only [applyOp, h1]
    exact h
  | summary now => exact h
  | record_call now => exact h

theorem runOps_pool_le (ttl_hours mx : Nat) (ops : List (CacheOp Q A)) :
    (runOps Q A ttl_hours mx ops).similar_pool.length ≤ mx := by
  have key : ∀ (l : List (CacheOp Q A)) (s : CacheState Q A),
      s.similar_pool.length ≤ s.max_cache_size →
      (l.foldl applyOp s).similar_pool.length ≤ (l.foldl applyOp s).max_cache_size := by
    intro l
    induction l with
    | nil => intro s h; exact h
    | cons op rest ih =>
      intro s h
      simp only [List.foldl_cons]
      apply ih
      rw [applyOp_max]
      exact applyOp_pool_le s op h
  have hmax : ∀ (l : List (CacheOp Q A)) (s : CacheState Q A),
      (l.foldl applyOp s).max_cache_size = s.max_cache_size := by
    intro l
    induction l with
    | nil => intro s; rfl
    | cons op rest ih =>
      intro s
      simp only [List.foldl_cons]
      rw [ih, applyOp_max]
  have h0 := key ops (initCache Q A ttl_hours mx) (by simp [initCache])
  have h1 := hmax ops (initCache Q A ttl_hours mx)
  rw [runOps]
  rw [h1] at h0
  exact h0

theorem save_questions_evicts (s : CacheState Q A) (now : Nat) (qs : List Q)
    (r d diff : String)
    (hover : s.max_cache_size < s.similar_pool.length + 1) :
    ∃ removed : List PoolItem,
      ((save_questions s now qs r d diff).1.similar_pool ++ removed).Perm
        (s.similar_pool ++
          [{ fingerprint := _create_fingerprint r d, entryId := s.entries.length,
             accessed_at := now, cache_type := "questions" }]) ∧
      ∀ x ∈ removed, ∀ y ∈ (save_questions s now qs r d diff).1.similar_pool,
        x.accessed_at ≤ y.accessed_at := by
  have hcond : s.max_cache_size <
      (s.similar_pool ++
        [({ fingerprint := _create_fingerprint r d, entryId := s.entries.length,
             accessed_at := now, cache_type := "questions" } : PoolItem)]).length := by
    simp only [List.length_append, List.length_cons, List.length_nil]
    omega
  have hsp : (save_questions s now qs r d diff).1.similar_pool =
      ((s.similar_pool ++
          [({ fingerprint := _create_fingerprint r d, entryId := s.entries.length,
              accessed_at := now, cache_type := "questions" } : PoolItem)]).mergeSort
        (fun a b => decide (b.accessed_at ≤ a.accessed_at))).take s.max_cache_size := by
    simp only [save_questions]
    rw [if_pos hcond]
  refine ⟨((s.similar_pool ++
      [({ fingerprint := _create_fingerprint r d, entryId := s.entries.length,
          accessed_at := now, cache_type := "questions" } : PoolItem)]).mergeSort
        (fun a b => decide (b.accessed_at ≤ a.accessed_at))).drop s.max_cache_size, ?_, ?_⟩
  · rw [hsp, List.take_append_drop]
    exact List.mergeSort_perm _ _
  · intro x hx y hy
    rw [hsp] at hy
    have hsorted : List.Pairwise
        (fun a b : PoolItem => (fun a b => decide (b.accessed_at ≤ a.accessed_at)) a b = true)
        ((s.similar_pool ++
          [({ fingerprint := _create_fingerprint r d, entryId := s.entries.length,
              accessed_at := now, cache_type := "questions" } : PoolItem)]).mergeSort
          (fun a b => decide (b.accessed_at ≤ a.accessed_at))) := by
      apply List.sorted_mergeSort
      · intro a b c hab hbc
        simp only [decide_eq_true_eq] at *
        omega
      · intro a b
        simp only [Bool.or_eq_true, decide_eq_true_eq]
        omega
    rw [← List.take_append_drop s.max_cache_size
      ((s.similar_pool ++
        [({ fingerprint := _create_fingerprint r d, entryId := s.entries.length,
            accessed_at := now, cache_type := "questions" } : PoolItem)]).mergeSort
        (fun a b => decide (b.accessed_at ≤ a.accessed_at)))] at hsorted
    have h3 := (List.pairwise_append.mp hsorted).2.2 y hy x hx
    simpa using h3

/-- C2: the similarity pool's length never exceeds `max_cache_size` — it
holds after any operation sequence from a fresh cache and is preserved by
every single operation from any bounded state — and whenever an insertion by
`save_questions` pushes the pool past the bound, the kept pool plus the
removed items is a permutation of the pool after the append, and every
removed item's `accessed_at` is at most every kept item's `accessed_at`
(least recently accessed dropped first). -/
theorem c2_pool_bounded (ttl_hours mx : Nat) (ops : List (CacheOp Q A))
    (s : CacheState Q A) (op : CacheOp Q A) (now : Nat) (qs : List Q) (r d diff : String)
    (h : s.similar_pool.length ≤ s.max_cache_size) :
    (runOps Q A ttl_hours mx ops).similar_pool.length ≤ mx ∧
    (applyOp s op).similar_pool.length ≤ s.max_cache_size ∧
    (s.max_cache_size < s.similar_pool.length + 1 →
      ∃ removed : List PoolItem,
        ((save_questions s now qs r d diff).1.similar_pool ++ removed).Perm
          (s.similar_pool ++
            [{ fingerprint := _create_fingerprint r d, entryId := s.entries.length,
               accessed_at := now, cache_type := "questions" }]) ∧
        ∀ x ∈ removed, ∀ y ∈ (save_questions s now qs r d diff).1.similar_pool,
          x.accessed_at ≤ y.accessed_at) :=
  ⟨runOps_pool_le ttl_hours mx ops, applyOp_pool_le s op h,
   fun hover => save_questions_evicts s now qs r d diff hover⟩

/-- Witness for C2: a cache bounded at 2 filled with two saves, overflowed by
a third. -/
theorem c2_pool_bounded_witness :
    (let s2 := runOps Nat Nat 24 2
       [.save_q 0 [1] "r1" "d1" "M", .save_q 1 [2] "r2" "d2" "M"]
     s2.similar_pool.length ≤ s2.max_cache_size ∧
     ((runOps Nat Nat 24 2 [.save_q 0 [1] "r1" "d1" "M"]).similar_pool.length ≤ 2 ∧
      (applyOp s2 (.save_q 2 [3] "r3" "d3" "M")).similar_pool.length ≤ s2.max_cache_size ∧
      (s2.max_cache_size < s2.similar_pool.length + 1 →
        ∃ removed : List PoolItem,
          ((save_questions s2 2 [3] "r3" "d3" "M").1.similar_pool ++ removed).Perm
            (s2.similar_pool ++
              [{ fingerprint := _create_fingerprint "r3" "d3", entryId := s2.entries.length,
                 accessed_at := 2, cache_type := "questions" }]) ∧
          ∀ x ∈ removed, ∀ y ∈ (save_questions s2 2 [3] "r3" "d3" "M").1.similar_pool,
            x.accessed_at ≤ y.accessed_at))) :=
  ⟨by decide,
   c2_pool_bounded 24 2 [.save_q 0 [1] "r1" "d1" "M"]
     (runOps Nat Nat 24 2 [.save_q 0 [1] "r1" "d1" "M", .save_q 1 [2] "r2" "d2" "M"])
     (.save_q 2 [3] "r3" "d3" "M") 2 [3] "r3" "d3" "M" (by decide)⟩


theorem _cleanup_expired_stats (s : CacheState Q A) (now : Nat) :
    (_cleanup_expired s now).stats = s.stats := rfl

/-- Bridge between the efficiency comparison `c/10 <= hits/T` as computed on
exact fractions and the corresponding rational inequality on percentages. -/
theorem rate_ble_iff (c : Int) (hits T : Nat) (hpos : 0 < T) :
    ((⟨c, 10⟩ : PyFloat).ble (PyFloat.div ⟨(hits : Int), 1⟩ ⟨(T : Int), 1⟩) = true) ↔
      10 * (c : ℚ) ≤ ((hits : ℚ) / (T : ℚ)) * 100 := by
  simp only [PyFloat.ble, PyFloat.div, decide_eq_true_eq, one_mul, mul_one]
  rw [div_mul_eq_mul_div, le_div_iff₀ (by exact_mod_cast hpos)]
  constructor
  · intro h
    have h' : (c : ℚ) * T ≤ hits * 10 := by exact_mod_cast h
    linarith
  · intro h
    have h' : (c : ℚ) * T ≤ (hits : ℚ) * 10 := by linarith
    exact_mod_cast h'

/-- C7 (amended): `stats_summary` reports the hit rate as the percentage
`(N + M) / T * 100` when `T > 0` and as 0 when `T = 0`, and the efficiency
label follows the documented thresholds — with the strings the source
actually returns: "Excellent (80%+)", "Good (60-80%)", "Fair (40-60%)",
"Warming up (<40%)", and "No data yet" for `T = 0`.  (Amendment forced by
the counterexample: the source labels carry a range suffix, so the label is
never exactly "Excellent".) -/
theorem c7_stats_consistency (s : CacheState Q A) (now : Nat) (T N M : Nat)
    (hT : s.stats.total_requests = T) (hN : s.stats.exact_hits = N)
    (hM : s.stats.similar_hits = M) :
    (0 < T → ((stats_summary s now).2.cache_hit_rate).toRat = ((N + M : ℚ) / T) * 100) ∧
    (T = 0 → (stats_summary s now).2.cache_hit_rate = ⟨0, 1⟩) ∧
    (T = 0 → (stats_summary s now).2.cache_efficiency = "No data yet") ∧
    (0 < T →
      ((80 ≤ ((N + M : ℚ) / T) * 100 →
         (stats_summary s now).2.cache_efficiency = "Excellent (80%+)") ∧
       (60 ≤ ((N + M : ℚ) / T) * 100 → ((N + M : ℚ) / T) * 100 < 80 →
         (stats_summary s now).2.cache_efficiency = "Good (60-80%)") ∧
       (40 ≤ ((N + M : ℚ) / T) * 100 → ((N + M : ℚ) / T) * 100 < 60 →
         (stats_summary s now).2.cache_efficiency = "Fair (40-60%)") ∧
       (((N + M : ℚ) / T) * 100 < 40 →
         (stats_summary s now).2.cache_efficiency = "Warming up (<40%)"))) := by
  subst hT hN hM
  refine ⟨?_, ?_, ?_, ?_⟩
  · intro hpos
    have hT0 : ((s.stats.total_requests : ℚ)) ≠ 0 := Nat.cast_ne_zero.mpr (by omega)
    simp only [stats_summary, _cleanup_expired_stats, if_pos hpos, PyFloat.div,
      PyFloat.mul, PyFloat.toRat]
    push_cast
    field_simp
  · intro h0
    simp only [stats_summary, _cleanup_expired_stats, if_neg (by omega : ¬ 0 < s.stats.total_requests)]
  · intro h0
    have hb : (s.stats.total_requests == 0) = true := by
      rw [beq_iff_eq]
      exact h0
    simp only [stats_summary, _calculate_efficiency, _cleanup_expired_stats, hb, if_true]
  · intro hpos
    have hne : (s.stats.total_requests == 0) = false := by
      rw [beq_eq_false_iff_ne]
      omega
    refine ⟨?_, ?_, ?_, ?_⟩
    · intro hq
      simp only [stats_summary, _calculate_efficiency, _cleanup_expired_stats, hne,
        Bool.false_eq_true, if_false]
      split_ifs with h8 h6 h4
      · rfl
      all_goals
        exfalso
        rw [rate_ble_iff 8 (s.stats.exact_hits + s.stats.similar_hits)
          s.stats.total_requests hpos] at h8
        push_cast at h8
        linarith
    · intro hq hq2
      simp only [stats_summary, _calculate_efficiency, _cleanup_expired_stats, hne,
        Bool.false_eq_true, if_false]
      split_ifs with h8 h6 h4
      · exfalso
        rw [rate_ble_iff 8 (s.stats.exact_hits + s.stats.similar_hits)
          s.stats.total_requests hpos] at h8
        push_cast at h8
        linarith
      · rfl
      all_goals
        exfalso
        rw [rate_ble_iff 6 (s.stats.exact_hits + s.stats.similar_hits)
          s.stats.total_requests hpos] at h6
        push_cast at h6
        linarith
    · intro hq hq2
      simp only [stats_summary, _calculate_efficiency, _cleanup_expired_stats, hne,
        Bool.false_eq_true, if_false]
      split_ifs with h8 h6 h4
      · exfalso
        rw [rate_ble_iff 8 (s.stats.exact_hits + s.stats.similar_hits)
          s.stats.total_requests hpos] at h8
        push_cast at h8
        linarith
      · exfalso
        rw [rate_ble_iff 6 (s.stats.exact_hits + s.stats.similar_hits)
          s.stats.total_requests hpos] at h6
        push_cast at h6
        linarith
      · rfl
      · exfalso
        rw [rate_ble_iff 4 (s.stats.exact_hits + s.stats.similar_hits)
          s.stats.total_requests hpos] at h4
        push_cast at h4
        linarith
    · intro hq
      simp only [stats_summary, _calculate_efficiency, _cleanup_expired_stats, hne,
        Bool.false_eq_true, if_false]
      split_ifs with h8 h6 h4
      · exfalso
        rw [rate_ble_iff 8 (s.stats.exact_hits + s.stats.similar_hits)
          s.stats.total_requests hpos] at h8
        push_cast at h8
        linarith
      · exfalso
        rw [rate_ble_iff 6 (s.stats.exact_hits + s.stats.similar_hits)
          s.stats.total_requests hpos] at h6
        push_cast at h6
        linarith
      · exfalso
        rw [rate_ble_iff 4 (s.stats.exact_hits + s.stats.similar_hits)
          s.stats.total_requests hpos] at h4
        push_cast at h4
        linarith
      · rfl

/-- Counterexample to C7 as stated: with one request and one exact hit the
hit rate is 100%, but the efficiency label is the source string
"Excellent (80%+)", not exactly "Excellent". -/
theorem c7_counterexample :
    (let s : CacheState Nat Nat := { initCache Nat Nat 24 500 with stats :=
        { exact_hits := 1, similar_hits := 0, cache_misses := 0, total_api_calls := 0,
          api_calls_saved := ⟨0, 1⟩, cost_saved := ⟨0, 1⟩, total_requests := 1 } }
     (stats_summary s 0).2.cache_efficiency = "Excellent (80%+)" ∧
       (stats_summary s 0).2.cache_efficiency ≠ "Excellent") :=
  ⟨by decide, by decide⟩

/-- Witness for C7 at a state with one exact hit out of two requests (a 50%
hit rate, labelled "Fair (40-60%)"). -/
theorem c7_stats_consistency_witness :
    (let s : CacheState Nat Nat := { initCache Nat Nat 24 500 with stats :=
        { exact_hits := 1, similar_hits := 0, cache_misses := 1, total_api_calls := 1,
          api_calls_saved := ⟨1, 1⟩, cost_saved := ⟨1, 1000⟩, total_requests := 2 } }
     s.stats.total_requests = 2 ∧ s.stats.exact_hits = 1 ∧ s.stats.similar_hits = 0 ∧
     ((0 < 2 → ((stats_summary s 7).2.cache_hit_rate).toRat = ((1 + 0 : ℚ) / 2) * 100) ∧
      (2 = 0 → (stats_summary s 7).2.cache_hit_rate = ⟨0, 1⟩) ∧
      (2 = 0 → (stats_summary s 7).2.cache_efficiency = "No data yet") ∧
      (0 < 2 →
        ((80 ≤ ((1 + 0 : ℚ) / 2) * 100 →
           (stats_summary s 7).2.cache_efficiency = "Excellent (80%+)") ∧
         (60 ≤ ((1 + 0 : ℚ) / 2) * 100 → ((1 + 0 : ℚ) / 2) * 100 < 80 →
           (stats_summary s 7).2.cache_efficiency = "Good (60-80%)") ∧
         (40 ≤ ((1 + 0 : ℚ) / 2) * 100 → ((1 + 0 : ℚ) / 2) * 100 < 60 →
           (stats_summary s 7).2.cache_efficiency = "Fair (40-60%)") ∧
         (((1 + 0 : ℚ) / 2) * 100 < 40 →
           (stats_summary s 7).2.cache_efficiency = "Warming up (<40%)"))))) :=
  ⟨rfl, rfl, rfl,
   c7_stats_consistency _ 7 2 1 0 rfl rfl rfl⟩

/-- C9: the expiry sweep — directly or as run by `stats_summary` — removes
expired entries only from the two maps and never removes or modifies any
similarity-pool item or heap entry; consequently a reachable state exists
(save under TTL 0, query one second later) in which `get_similar_questions`
returns the payload of an entry whose `expires_at` has already passed. -/
theorem c9_sweep_spares_pool (Q A : Type) :
    (∀ (s : CacheState Q A) (now : Nat),
      (_cleanup_expired s now).similar_pool = s.similar_pool ∧
      (_cleanup_expired s now).entries = s.entries ∧
      (stats_summary s now).1.similar_pool = s.similar_pool ∧
      (stats_summary s now).1.entries = s.entries) ∧
    (∃ (ops : List (CacheOp Nat Nat)) (now : Nat) (r d diff : String)
       (bi : Nat) (item : PoolItem) (e : CacheEntry Nat),
      (runOps Nat Nat 0 10 ops).similar_pool[bi]? = some item ∧
      (runOps Nat Nat 0 10 ops).entries[item.entryId]? = some e ∧
      e.expires_at < now ∧
      (get_similar_questions (runOps Nat Nat 0 10 ops) now r d diff ⟨65, 1⟩).2.1 =
        some e.questions) := by
  constructor
  · intro s now
    exact ⟨rfl, rfl, rfl, rfl⟩
  · refine ⟨[.save_q 0 [42] "python developer" "" "Medium"], 1, "python developer", "",
      "Medium", 0, ⟨"python developer|", 0, 0, "questions"⟩,
      { fingerprint := "python developer|", job_role := "python developer",
        job_description := "", difficulty := "Medium", questions := [42],
        created_at := 0, expires_at := 0, access_count := 0,
        cache_type := "questions" }, ?_, ?_, ?_, ?_⟩ <;> decide


end SmartCache
